import Mathlib

/-!
Shallow embedding of the pool-inspection-system core:
the authentication/session service (src/services/auth.py), the pool-reading
workflow service (src/services/pool_reading_service.py), the reading model
with its reference-id derivation (src/pools/models.py), the dashboard cache
and row materialization (src/ui/submissions_dashboard.py), and the form
component's submission path (src/ui/pool_form.py).

Store interactions (Django ORM calls) are modelled by explicit state passing:
the record store is a `List PoolReading`, I/O health is a `storeOk : Bool`
flag, and a Python exception escaping a function is an `Except.error`.
Python `float` measurement values are modelled as `ℚ`; the comparisons the
code performs (range checks) are exact at the values of interest.
-/

namespace PoolSpec

/-- hotels/models.py: Hotel(name unique, contact fields).  Only the fields
the core logic reads are carried. -/
structure Hotel where
  id : Nat
  name : String
  deriving Repr, DecidableEq

/-- accounts/models.py: User(username unique, password_hash, is_admin,
hotel nullable FK). -/
structure User where
  id : Nat
  username : String
  passwordHash : String
  isAdmin : Bool
  hotel : Option Hotel
  deriving Repr, DecidableEq

/-- Django's FK id column `user.hotel_id` (None when the FK is null). -/
def User.hotelId (u : User) : Option Nat := u.hotel.map Hotel.id

/-- A wall-clock instant at second precision, as the code's
`datetime` objects are only ever formatted at second precision. -/
structure DateTime where
  year : Nat
  month : Nat
  day : Nat
  hour : Nat
  minute : Nat
  second : Nat
  deriving Repr, DecidableEq

/-- Zero-pad to two digits, as Python strftime does for %m/%d/%H/%M/%S. -/
def pad2 (n : Nat) : String :=
  if n < 10 then "0" ++ toString n else toString n

/-- Zero-pad to four digits, as Python strftime does for %Y. -/
def pad4 (n : Nat) : String :=
  if n < 10 then "000" ++ toString n
  else if n < 100 then "00" ++ toString n
  else if n < 1000 then "0" ++ toString n
  else toString n

/-- pools/models.py line 46: `strftime('%Y%m%d_%H%M%S')`. -/
def formatTimestamp (t : DateTime) : String :=
  pad4 t.year ++ pad2 t.month ++ pad2 t.day ++ "_" ++
    pad2 t.hour ++ pad2 t.minute ++ pad2 t.second

/-- submissions_dashboard.py line 20: `DATE_FORMAT = '%Y-%m-%d %H:%M'`. -/
def formatDashboardDate (t : DateTime) : String :=
  pad4 t.year ++ "-" ++ pad2 t.month ++ "-" ++ pad2 t.day ++ " " ++
    pad2 t.hour ++ ":" ++ pad2 t.minute

/-- pools/models.py `PoolReading.Status.choices` keys:
the four enumerated status values. -/
def statusChoices : List String := ["open", "submitted", "in_progress", "completed"]

/-- Django `get_status_display()`: value → human label
(raw value when not a known choice). -/
def statusDisplay (s : String) : String :=
  if s = "open" then "Açık"
  else if s = "submitted" then "Gönderildi"
  else if s = "in_progress" then "İnceleniyor"
  else if s = "completed" then "Tamamlandı"
  else s

/-- Django `get_water_clarity_display()` over `WaterClarity.choices`. -/
def clarityDisplay (s : String) : String :=
  if s = "clear" then "Berrak"
  else if s = "cloudy" then "Bulanık"
  else if s = "algae" then "Yosun Var"
  else s

/-- pools/models.py: PoolReading row.  `submissionDate` is `none` before the
row is inserted (Django `auto_now_add` fills it at insert time). -/
structure PoolReading where
  id : Nat
  hotel : Hotel
  submittedBy : User
  submissionDate : Option DateTime
  phLevel : ℚ
  chlorinePpm : ℚ
  alkalinityPpm : ℤ
  temperatureCelsius : ℚ
  waterClarity : String
  notes : String
  referenceId : String
  status : String
  deriving Repr, DecidableEq

/-- pools/models.py lines 43-48, the in-memory part of `PoolReading.save`:
if `reference_id` is empty, derive it from the hotel name, the submitter's
username, and the formatted timestamp (the stored `submission_date` when
already set, else the current instant); otherwise leave the row untouched. -/
def PoolReading.applySaveDerivation (r : PoolReading) (now : DateTime) : PoolReading :=
  if r.referenceId = "" then
    let timestamp := match r.submissionDate with
      | some d => formatTimestamp d
      | none => formatTimestamp now
    { r with referenceId := r.hotel.name ++ "__" ++ r.submittedBy.username ++ "__" ++ timestamp }
  else r

/-- A Python exception escaping a function in the embedding:
`validationError` is a pydantic `ValidationError` raised while constructing
a DTO; `storeError` is an uncaught store/ORM fault. -/
inductive PyError where
  | validationError
  | storeError
  deriving Repr, DecidableEq

/-! ## Authentication & session service (src/services/auth.py) -/

/-- auth.py: `AuthenticationResult` pydantic model. -/
structure AuthenticationResult where
  success : Bool
  message : String
  user : Option User
  deriving Repr, DecidableEq

/-- auth.py lines 33-85, `AuthenticationService.authenticate`.
`users` is the credential store's user table, `checkPassword` the external
hash-verification primitive, `storeOk` the health of the store lookup
(`false` makes the `aget` raise, landing in the final `except Exception`). -/
def authenticate (users : List User) (checkPassword : String → String → Bool)
    (username password : String) (storeOk : Bool) : AuthenticationResult :=
  if username = "" ∨ password = "" then
    ⟨false, "Kullanıcı adı ve şifre gereklidir", none⟩
  else if storeOk then
    match users.find? (fun u => u.username = username) with
    | some u =>
      if checkPassword password u.passwordHash then
        ⟨true, "Giriş başarılı!", some u⟩
      else
        ⟨false, "Geçersiz şifre", none⟩
    | none => ⟨false, "Kullanıcı bulunamadı", none⟩
  else
    ⟨false, "Kimlik doğrulama sırasında bir hata oluştu", none⟩

/-- The per-token session storage (`app.storage.user`): it holds at most the
`'user_id'` entry the auth service writes. -/
structure SessionState where
  userId : Option Nat
  deriving Repr, DecidableEq

/-- Result of `get_current_user`: the resolved user (if any) and the
session state after the call. -/
structure CurrentUserOutcome where
  user : Option User
  session : SessionState
  deriving Repr, DecidableEq

/-- auth.py lines 87-111, `AuthenticationService.get_current_user`.
`if not user_id` treats a falsy id (absent, or the integer 0) as no identity.
When the id no longer resolves (`User.DoesNotExist`), the session is cleared
(`clear_session` empties the token's storage) and `none` is returned; any
other store fault is caught and `none` returned with the session kept. -/
def get_current_user (users : List User) (st : SessionState) (storeOk : Bool) :
    CurrentUserOutcome :=
  match st.userId with
  | none => ⟨none, st⟩
  | some uid =>
    if uid = 0 then ⟨none, st⟩
    else if storeOk then
      match users.find? (fun u => u.id = uid) with
      | some u => ⟨some u, st⟩
      | none => ⟨none, ⟨none⟩⟩
    else ⟨none, st⟩

/-! ## Reading workflow service (src/services/pool_reading_service.py) -/

/-- pool_reading_service.py: `PoolReadingData` pydantic DTO (already
validated — see `mkPoolReadingData` for the validating constructor). -/
structure PoolReadingData where
  phLevel : ℚ
  chlorinePpm : ℚ
  alkalinityPpm : ℤ
  temperatureCelsius : ℚ
  waterClarity : String
  notes : String
  deriving Repr, DecidableEq

/-- Constructing `PoolReadingData(...)`: pydantic enforces the `Field`
bounds `ph_level ∈ [0,14]`, `chlorine_ppm ≥ 0`, `alkalinity_ppm ≥ 0`
(temperature, clarity and notes are unconstrained) and raises
`ValidationError` on violation. -/
def mkPoolReadingData (ph chlorine : ℚ) (alk : ℤ) (temp : ℚ)
    (clarity notes : String) : Except PyError PoolReadingData :=
  if 0 ≤ ph ∧ ph ≤ 14 ∧ 0 ≤ chlorine ∧ 0 ≤ alk then
    .ok ⟨ph, chlorine, alk, temp, clarity, notes⟩
  else
    .error .validationError

/-- pool_reading_service.py: `PoolReadingSubmissionResult`. -/
structure PoolReadingSubmissionResult where
  success : Bool
  message : String
  referenceId : Option String
  reading : Option PoolReading
  deriving Repr, DecidableEq

/-- submit_reading's no-hotel failure message (lines 76-77, the two adjacent
string literals concatenate). -/
def messageNoHotel : String :=
  "Kullanıcı bir otelle ilişkilendirilmemiş. Lütfen yöneticiyle iletişime geçin."

/-- submit_reading's success message (line 93). -/
def messageSubmitSuccess : String := "Havuz ölçümü başarıyla gönderildi."

/-- submit_reading's generic store-failure message (lines 114-115). -/
def messageSystemError : String :=
  "Sistem hatası nedeniyle gönderim başarısız oldu. Lütfen daha sonra tekrar deneyin."

/-- A submission's observable outcome: the structured result handed to the
caller and the record store afterwards. -/
structure SubmitOutcome where
  result : PoolReadingSubmissionResult
  db : List PoolReading
  deriving Repr, DecidableEq

/-- pool_reading_service.py lines 56-140, `PoolReadingService.submit_reading`
together with `_create_reading` and the store insert it performs.
The store is `db`; `nextId` is the next autoincrement key; `now` the current
instant; `storeOk` the I/O health.  `_create_reading` calls
`PoolReading.objects.acreate(..., status=SUBMITTED)`, which builds the row,
runs `PoolReading.save` (deriving the reference id, see
`applySaveDerivation`), fills `submission_date` (`auto_now_add`) and inserts;
a violation of the `reference_id` unique constraint raises `IntegrityError`,
which — like any other store fault — lands in the `except Exception` branch
and is downgraded to the generic failure result. -/
def submit_reading (db : List PoolReading) (nextId : Nat) (data : PoolReadingData)
    (user : User) (now : DateTime) (storeOk : Bool) : SubmitOutcome :=
  match user.hotel with
  | none => ⟨⟨false, messageNoHotel, none, none⟩, db⟩
  | some h =>
    if storeOk then
      let r0 : PoolReading :=
        { id := nextId
          hotel := h
          submittedBy := user
          submissionDate := none
          phLevel := data.phLevel
          chlorinePpm := data.chlorinePpm
          alkalinityPpm := data.alkalinityPpm
          temperatureCelsius := data.temperatureCelsius
          waterClarity := data.waterClarity
          notes := data.notes
          referenceId := ""
          status := "submitted" }
      let r1 := r0.applySaveDerivation now
      let r2 := { r1 with submissionDate := some now }
      if db.any (fun x => x.referenceId = r2.referenceId) then
        ⟨⟨false, messageSystemError, none, none⟩, db⟩
      else
        ⟨⟨true, messageSubmitSuccess, some r2.referenceId, some r2⟩, r2 :: db⟩
    else
      ⟨⟨false, messageSystemError, none, none⟩, db⟩

/-- pool_reading_service.py lines 201-236, the legacy wrapper
`submit_pool_reading` used by the form: it constructs `PoolReadingData`
(pydantic validation, OUTSIDE any try/except — a `ValidationError` raised
here escapes the function) and then delegates to `submit_reading`. -/
def submit_pool_reading (db : List PoolReading) (nextId : Nat)
    (ph chlorine : ℚ) (alk : ℤ) (temp : ℚ) (clarity notes : String)
    (user : User) (now : DateTime) (storeOk : Bool) :
    Except PyError SubmitOutcome :=
  (mkPoolReadingData ph chlorine alk temp clarity notes).map
    (fun data => submit_reading db nextId data user now storeOk)

/-- pool_reading_service.py lines 142-162, `get_reading_by_reference`:
only `PoolReading.DoesNotExist` is caught (returning `none`); any other
store fault propagates out of the function. -/
def get_reading_by_reference (db : List PoolReading) (referenceId : String)
    (storeOk : Bool) : Except PyError (Option PoolReading) :=
  if storeOk then
    .ok (db.find? (fun r => r.referenceId = referenceId))
  else
    .error .storeError

/-- Outcome of `update_reading_status`: the returned bool, the caller's
in-memory reading object after the call, and the record store afterwards. -/
structure UpdateStatusOutcome where
  ok : Bool
  reading : PoolReading
  db : List PoolReading
  deriving Repr, DecidableEq

/-- The store write of `reading.asave(update_fields=['status'])`: a
single-column update of the row with the reading's primary key. -/
def dbUpdateStatus (db : List PoolReading) (id : Nat) (newStatus : String) :
    List PoolReading :=
  db.map (fun r => if r.id = id then { r with status := newStatus } else r)

/-- pool_reading_service.py lines 164-197, `update_reading_status`.
The requested status is validated against `Status.choices` (a bad value
raises `ValueError`, caught below, returning false before any mutation).
Then the in-memory object's `status` field is assigned and
`asave(update_fields=['status'])` is awaited; if the store write fails the
exception is caught and false returned — but the in-memory assignment is
not rolled back.  Note there is no check of `updated_by` beyond logging. -/
def update_reading_status (db : List PoolReading) (reading : PoolReading)
    (newStatus : String) (updatedBy : User) (now : DateTime) (storeOk : Bool) :
    UpdateStatusOutcome :=
  if ¬ statusChoices.contains newStatus then
    ⟨false, reading, db⟩
  else
    let reading1 := { reading with status := newStatus }
    let reading2 := reading1.applySaveDerivation now
    if storeOk then
      ⟨true, reading2, dbUpdateStatus db reading2.id newStatus⟩
    else
      ⟨false, reading2, db⟩

/-! ## Dashboard cache and row materialization (src/ui/submissions_dashboard.py) -/

/-- submissions_dashboard.py line 18: `CACHE_TTL_SECONDS = 60`. -/
def CACHE_TTL_SECONDS : Nat := 60

/-- submissions_dashboard.py: `SubmissionRow`, the flattened projection of a
reading shown in the table. -/
structure SubmissionRow where
  id : Nat
  referenceId : String
  hotelName : String
  submittedBy : String
  submissionDate : String
  status : String
  phLevel : ℚ
  chlorinePpm : ℚ
  waterClarity : String
  deriving Repr, DecidableEq

/-- submissions_dashboard.py lines 51-89: `SubmissionsCache`, the single
slot `{_data, _timestamp, _user_id}` plus the configured TTL.  Wall-clock
instants are integer seconds. -/
structure SubmissionsCache where
  data : Option (List SubmissionRow)
  timestamp : Option ℤ
  userId : Option Nat
  ttlSeconds : Nat
  deriving Repr, DecidableEq

/-- `SubmissionsCache.__init__`: empty slot with the given TTL. -/
def SubmissionsCache.init (ttlSeconds : Nat := CACHE_TTL_SECONDS) : SubmissionsCache :=
  ⟨none, none, none, ttlSeconds⟩

/-- submissions_dashboard.py lines 83-89, `_is_valid`: false when the slot is
empty or owned by a different user, else a strict age-below-TTL check. -/
def SubmissionsCache.isValid (c : SubmissionsCache) (userId : Nat) (now : ℤ) : Bool :=
  match c.data, c.timestamp with
  | some _, some ts =>
    if c.userId ≠ some userId then false
    else now - ts < (c.ttlSeconds : ℤ)
  | _, _ => false

/-- submissions_dashboard.py lines 60-67, `get`: the cached rows on a valid
hit, `None` on a miss. -/
def SubmissionsCache.get (c : SubmissionsCache) (userId : Nat) (now : ℤ) :
    Option (List SubmissionRow) :=
  if c.isValid userId now then c.data else none

/-- submissions_dashboard.py lines 69-74, `set`: unconditionally overwrite
the slot and reset the timestamp to now. -/
def SubmissionsCache.set (c : SubmissionsCache) (userId : Nat)
    (rows : List SubmissionRow) (now : ℤ) : SubmissionsCache :=
  { c with data := some rows, timestamp := some now, userId := some userId }

/-- submissions_dashboard.py lines 76-81, `invalidate`: clear all three
fields of the slot. -/
def SubmissionsCache.invalidate (c : SubmissionsCache) : SubmissionsCache :=
  { c with data := none, timestamp := none, userId := none }

/-- The row projection built in `_fetch_from_database` (lines 136-146).
Persisted rows always carry a `submission_date` (`auto_now_add`); the empty
string stands for the unreachable unpersisted case. -/
def projectRow (r : PoolReading) : SubmissionRow :=
  { id := r.id
    referenceId := r.referenceId
    hotelName := r.hotel.name
    submittedBy := r.submittedBy.username
    submissionDate := match r.submissionDate with
      | some d => formatDashboardDate d
      | none => ""
    status := statusDisplay r.status
    phLevel := r.phLevel
    chlorinePpm := r.chlorinePpm
    waterClarity := r.waterClarity |> clarityDisplay }

/-- submissions_dashboard.py lines 125-149, `_fetch_from_database`: admins
query all readings; non-admins filter on `hotel_id == user.hotel_id` (a null
`hotel_id` matches no row, since a reading's hotel FK is non-null). -/
def fetch_from_database (db : List PoolReading) (viewer : User) : List SubmissionRow :=
  let queryset :=
    if viewer.isAdmin then db
    else db.filter (fun r => some r.hotel.id = viewer.hotelId)
  queryset.map projectRow

/-- submissions_dashboard.py lines 100-123, `load_submissions`: consult the
cache unless `force_refresh`; on a miss fetch from the store and repopulate
the slot.  Returns the rows and the cache afterwards. -/
def load_submissions (db : List PoolReading) (viewer : User)
    (cache : SubmissionsCache) (now : ℤ) (forceRefresh : Bool) :
    List SubmissionRow × SubmissionsCache :=
  match if forceRefresh then none else cache.get viewer.id now with
  | some rows => (rows, cache)
  | none =>
    let rows := fetch_from_database db viewer
    (rows, cache.set viewer.id rows now)

/-! ## Form component (src/ui/pool_form.py) -/

/-- pool_form.py lines 213-225, `_render_status_field`: the status select is
disabled (readonly) unless the user is an admin — this is the only place the
admin-only status rule is enforced. -/
def statusFieldEnabled (user : User) : Bool := user.isAdmin

/-- pool_form.py lines 136-160: `handle_submit` delegates to
`submit_pool_reading` with the form state's field values — for a new and
for an existing reading alike, there is no update-in-place path. -/
def handle_submit (db : List PoolReading) (nextId : Nat)
    (ph chlorine : ℚ) (alk : ℤ) (temp : ℚ) (clarity notes : String)
    (user : User) (now : DateTime) (storeOk : Bool) :
    Except PyError SubmitOutcome :=
  submit_pool_reading db nextId ph chlorine alk temp clarity notes user now storeOk

/-! ## Concrete fixtures for witnesses and counterexamples -/

def hotelA : Hotel := ⟨1, "Grand"⟩

def hotelB : Hotel := ⟨2, "Marina"⟩

def staffUser : User := ⟨10, "ayse", "hash1", false, some hotelA⟩

def staffUserB : User := ⟨12, "mehmet", "hash3", false, some hotelB⟩

def adminUser : User := ⟨11, "root", "hash2", true, none⟩

def noHotelUser : User := ⟨13, "kemal", "hash4", false, none⟩

def t1 : DateTime := ⟨2024, 5, 17, 9, 30, 15⟩

def t2 : DateTime := ⟨2024, 5, 17, 10, 0, 0⟩

def sampleData : PoolReadingData := ⟨7, 1, 100, 26, "clear", ""⟩

def reading1 : PoolReading :=
  ⟨1, hotelA, staffUser, some t1, 7, 1, 100, 26, "clear", "",
   "Grand__ayse__20240517_093015", "submitted"⟩

def readingB : PoolReading :=
  ⟨2, hotelB, staffUserB, some t1, 7, 2, 90, 25, "cloudy", "",
   "Marina__mehmet__20240517_093015", "in_progress"⟩

def unsavedReading : PoolReading :=
  ⟨3, hotelA, staffUser, none, 7, 1, 100, 26, "clear", "", "", "open"⟩

/-! ## Claim theorems -/

/-- A status-only store write never touches the `reference_id` column. -/
theorem dbUpdateStatus_referenceIds (db : List PoolReading) (id : Nat) (s : String) :
    (dbUpdateStatus db id s).map PoolReading.referenceId =
      db.map PoolReading.referenceId := by
  induction db with
  | nil => rfl
  | cons r rest ih =>
    by_cases h : r.id = id <;> simp [dbUpdateStatus, h] at ih ⊢ <;> exact ih

/-- C6: a reading's reference id is computed exactly once, at first persist
when none is yet assigned, as the exact string
`hotelName ++ "__" ++ username ++ "__" ++ timestamp` with the timestamp
formatted `YYYYMMDD_HHMMSS`; a save of a reading that already carries a
reference id leaves the reading untouched, and a status update changes
neither the in-memory reading's reference id nor any persisted row's. -/
theorem reference_id_assigned_once (r : PoolReading) (now : DateTime)
    (db : List PoolReading) (newStatus : String) (actor : User) (storeOk : Bool) :
    (r.referenceId = "" →
      (r.applySaveDerivation now).referenceId =
        r.hotel.name ++ "__" ++ r.submittedBy.username ++ "__" ++
          formatTimestamp (r.submissionDate.getD now)) ∧
    (r.referenceId ≠ "" → r.applySaveDerivation now = r) ∧
    (r.referenceId ≠ "" →
      (update_reading_status db r newStatus actor now storeOk).reading.referenceId
        = r.referenceId) ∧
    (update_reading_status db r newStatus actor now storeOk).db.map
        PoolReading.referenceId
      = db.map PoolReading.referenceId := by
  refine ⟨fun h => ?_, fun h => ?_, fun h => ?_, ?_⟩
  · cases hd : r.submissionDate <;>
      simp [PoolReading.applySaveDerivation, h, hd, Option.getD]
  · simp [PoolReading.applySaveDerivation, h]
  · unfold update_reading_status
    by_cases hv : newStatus ∈ statusChoices <;>
      cases storeOk <;>
        simp [hv, PoolReading.applySaveDerivation, h]
  · unfold update_reading_status
    by_cases hv : newStatus ∈ statusChoices <;>
      cases storeOk <;>
        simp [hv, dbUpdateStatus_referenceIds]

/-- Witness for `reference_id_assigned_once` at concrete inputs. -/
theorem reference_id_assigned_once_witness :
    (unsavedReading.applySaveDerivation t1).referenceId =
      "Grand__ayse__20240517_093015" ∧
    reading1.applySaveDerivation t2 = reading1 ∧
    (update_reading_status [reading1] reading1 "in_progress" adminUser t2
        true).reading.referenceId = reading1.referenceId ∧
    (update_reading_status [reading1] reading1 "in_progress" adminUser t2
        true).db.map PoolReading.referenceId
      = [reading1].map PoolReading.referenceId := by
  obtain ⟨h1, -, -, -⟩ :=
    reference_id_assigned_once unsavedReading t1 [] "in_progress" adminUser true
  obtain ⟨-, h2, h3, h4⟩ :=
    reference_id_assigned_once reading1 t2 [reading1] "in_progress" adminUser true
  exact ⟨(h1 rfl).trans (by decide), h2 (by decide), h3 (by decide), h4⟩

/-- C7: with the configured 60-second TTL, `get userId` returns the stored
rows iff the slot's owner equals `userId` and the slot's age is strictly
below the TTL (any mismatch — different viewer, expired, or empty slot — is
a miss); `set` unconditionally overwrites the slot's rows and owner and
resets its timestamp to now. -/
theorem cache_hit_iff_owner_and_fresh (c : SubmissionsCache) (userId : Nat)
    (now : ℤ) (rows : List SubmissionRow) (h60 : c.ttlSeconds = 60) :
    (c.get userId now = some rows ↔
      c.data = some rows ∧ c.userId = some userId ∧
        ∃ ts, c.timestamp = some ts ∧ now - ts < 60) ∧
    (c.set userId rows now).data = some rows ∧
    (c.set userId rows now).timestamp = some now ∧
    (c.set userId rows now).userId = some userId := by
  obtain ⟨d, ts, uid, ttl⟩ := c
  simp only [SubmissionsCache.ttlSeconds] at h60
  subst h60
  refine ⟨?_, rfl, rfl, rfl⟩
  cases d with
  | none => simp [SubmissionsCache.get, SubmissionsCache.isValid]
  | some stored =>
    cases ts with
    | none => simp [SubmissionsCache.get, SubmissionsCache.isValid]
    | some t =>
      by_cases hu : uid = some userId
      · subst hu
        by_cases hfresh : now - t < 60 <;>
          simp [SubmissionsCache.get, SubmissionsCache.isValid, hfresh]
      · simp [SubmissionsCache.get, SubmissionsCache.isValid, hu]

/-- Witness for `cache_hit_iff_owner_and_fresh`: set for viewer 1 at t=100,
then a fresh get for viewer 1 hits, a get for viewer 2 misses, and a get for
viewer 1 after the TTL elapses misses. -/
theorem cache_hit_iff_owner_and_fresh_witness :
    ((SubmissionsCache.init.set 1 [projectRow reading1] 100).get 1 100
      = some [projectRow reading1]) ∧
    ((SubmissionsCache.init.set 1 [projectRow reading1] 100).get 2 100 = none) ∧
    ((SubmissionsCache.init.set 1 [projectRow reading1] 100).get 1 161 = none) := by
  have h := cache_hit_iff_owner_and_fresh
    (SubmissionsCache.init.set 1 [projectRow reading1] 100) 1 100
    [projectRow reading1] rfl
  exact ⟨h.1.mpr ⟨rfl, rfl, 100, rfl, by decide⟩, by decide, by decide⟩

/-- C8: dashboard row materialization is role-scoped over the same store:
an admin viewer's listing is the projection of every reading, while a
non-admin viewer with assigned hotel `h` gets exactly the projections of the
readings whose hotel is `h`. -/
theorem dashboard_rows_role_scoped (db : List PoolReading) (viewer : User) :
    (viewer.isAdmin = true →
      fetch_from_database db viewer = db.map projectRow) ∧
    (∀ h : Hotel, viewer.isAdmin = false → viewer.hotel = some h →
      fetch_from_database db viewer =
        (db.filter (fun r => r.hotel.id = h.id)).map projectRow) := by
  constructor
  · intro ha
    simp [fetch_from_database, ha]
  · intro h ha hh
    simp only [fetch_from_database, ha, Bool.false_eq_true, if_false]
    congr 1
    apply List.filter_congr
    intro r _
    simp [User.hotelId, hh]

/-- Witness for `dashboard_rows_role_scoped`: over a store with readings at
two hotels, the admin sees both rows, the hotel-A staff member only theirs. -/
theorem dashboard_rows_role_scoped_witness :
    fetch_from_database [reading1, readingB] adminUser =
      [projectRow reading1, projectRow readingB] ∧
    fetch_from_database [reading1, readingB] staffUser = [projectRow reading1] := by
  have hadm := dashboard_rows_role_scoped [reading1, readingB] adminUser
  have hstaff := dashboard_rows_role_scoped [reading1, readingB] staffUser
  exact ⟨(hadm.1 rfl).trans rfl, (hstaff.2 hotelA rfl rfl).trans rfl⟩

/-- C9: when the session holds a user id that no longer resolves in the
credential store, `get_current_user` returns none and clears the session
state, and a second call with the cleared session also returns none — the
cleanup is idempotent. -/
theorem stale_session_cleared_idempotent (users : List User) (uid : Nat)
    (hne : uid ≠ 0) (hgone : users.find? (fun u => u.id = uid) = none) :
    get_current_user users ⟨some uid⟩ true = ⟨none, ⟨none⟩⟩ ∧
    get_current_user users
        (get_current_user users ⟨some uid⟩ true).session true = ⟨none, ⟨none⟩⟩ := by
  have h1 : get_current_user users ⟨some uid⟩ true = ⟨none, ⟨none⟩⟩ := by
    simp [get_current_user, hne, hgone]
  refine ⟨h1, ?_⟩
  rw [h1]
  rfl

/-- Witness for `stale_session_cleared_idempotent`: user id 99 is absent
from a credential store holding only user 10. -/
theorem stale_session_cleared_idempotent_witness :
    get_current_user [staffUser] ⟨some 99⟩ true = ⟨none, ⟨none⟩⟩ ∧
    get_current_user [staffUser]
        (get_current_user [staffUser] ⟨some 99⟩ true).session true
      = ⟨none, ⟨none⟩⟩ :=
  stale_session_cleared_idempotent [staffUser] 99 (by decide) (by decide)

/-- C10: `update_reading_status` is not atomic on store failure: with a
valid requested status and a failing store write, it returns false and the
persisted store is unchanged, but the caller's in-memory reading object
retains the attempted new status — the mutation is not rolled back. -/
theorem updateStatus_inmemory_not_rolled_back (db : List PoolReading)
    (r : PoolReading) (newStatus : String) (actor : User) (now : DateTime)
    (hvalid : newStatus ∈ statusChoices) :
    (update_reading_status db r newStatus actor now false).ok = false ∧
    (update_reading_status db r newStatus actor now false).reading.status
      = newStatus ∧
    (update_reading_status db r newStatus actor now false).db = db := by
  unfold update_reading_status
  by_cases h : r.referenceId = "" <;>
    simp [hvalid, PoolReading.applySaveDerivation, h]

/-- Witness for `updateStatus_inmemory_not_rolled_back`: a failing store
write of status `completed` on `reading1` leaves the store row `submitted`
but the in-memory object `completed`, with false returned. -/
theorem updateStatus_inmemory_not_rolled_back_witness :
    (update_reading_status [reading1] reading1 "completed" adminUser t2
        false).ok = false ∧
    (update_reading_status [reading1] reading1 "completed" adminUser t2
        false).reading.status = "completed" ∧
    (update_reading_status [reading1] reading1 "completed" adminUser t2
        false).db = [reading1] :=
  updateStatus_inmemory_not_rolled_back [reading1] reading1 "completed"
    adminUser t2 (by decide)

/-- C1 counterexample: a non-admin actor requesting a valid status on a
healthy store gets `true` back and the status does change, both on the
in-memory reading and in the store — refuting "updateStatus called by a
non-admin actor always returns false and leaves status unchanged". -/
theorem nonadmin_updateStatus_succeeds :
    staffUser.isAdmin = false ∧
    (update_reading_status [reading1] reading1 "in_progress" staffUser t2
        true).ok = true ∧
    (update_reading_status [reading1] reading1 "in_progress" staffUser t2
        true).reading.status = "in_progress" ∧
    reading1.status = "submitted" ∧
    (update_reading_status [reading1] reading1 "in_progress" staffUser t2
        true).db ≠ [reading1] := by
  decide

/-- C1 amended: `update_reading_status` performs no role check at all — its
outcome is identical for any two actors; a requested status outside the four
enumerated values fails (returns false) before any write; the admin-only
restriction exists only in the UI, where the status field is enabled exactly
for admins. -/
theorem updateStatus_actor_independent (db : List PoolReading)
    (r : PoolReading) (newStatus : String) (a1 a2 : User) (now : DateTime)
    (storeOk : Bool) :
    update_reading_status db r newStatus a1 now storeOk =
      update_reading_status db r newStatus a2 now storeOk ∧
    (newStatus ∉ statusChoices →
      update_reading_status db r newStatus a1 now storeOk = ⟨false, r, db⟩) ∧
    statusFieldEnabled a1 = a1.isAdmin := by
  refine ⟨rfl, fun h => ?_, rfl⟩
  simp [update_reading_status, h]

/-- Witness for `updateStatus_actor_independent`: the bogus status "bogus"
is rejected before any write, and a staff member's update outcome coincides
with the admin's. -/
theorem updateStatus_actor_independent_witness :
    update_reading_status [reading1] reading1 "bogus" staffUser t2 true
      = ⟨false, reading1, [reading1]⟩ ∧
    update_reading_status [reading1] reading1 "in_progress" staffUser t2 true
      = update_reading_status [reading1] reading1 "in_progress" adminUser t2
          true := by
  have h1 := updateStatus_actor_independent [reading1] reading1 "bogus"
    staffUser adminUser t2 true
  have h2 := updateStatus_actor_independent [reading1] reading1 "in_progress"
    staffUser adminUser t2 true
  exact ⟨h1.2.1 (by decide), h2.1⟩

/-- First submission of `sampleData` by `staffUser` at instant `t1`. -/
def firstSubmit : SubmitOutcome := submit_reading [] 1 sampleData staffUser t1 true

/-- Second submission by the same user for the same hotel within the same
second, against the store left by the first. -/
def secondSubmit : SubmitOutcome :=
  submit_reading firstSubmit.db 2 sampleData staffUser t1 true

/-- C2 counterexample: the same-second duplicate submission does not surface
a distinct DuplicateReference/Conflict outcome — it returns the very same
generic system-failure result that a plain store I/O fault produces (no
silent overwrite does occur: the store is unchanged). -/
theorem same_second_duplicate_generic_failure :
    firstSubmit.result.success = true ∧
    secondSubmit.result = ⟨false, messageSystemError, none, none⟩ ∧
    secondSubmit.result =
      (submit_reading firstSubmit.db 2 sampleData staffUser t1 false).result ∧
    secondSubmit.db = firstSubmit.db := by
  decide

/-- C2 amended: a submission whose derived reference id collides with an
existing row fails with the generic localized failure result and leaves the
store unchanged — indistinguishable from a plain store failure, not a
distinct DuplicateReference outcome, and not a silent overwrite. -/
theorem duplicate_reference_downgraded_generic (db : List PoolReading)
    (nextId : Nat) (data : PoolReadingData) (user : User) (h : Hotel)
    (now : DateTime) (hh : user.hotel = some h)
    (hcol : db.any (fun x => x.referenceId =
      h.name ++ "__" ++ user.username ++ "__" ++ formatTimestamp now) = true) :
    submit_reading db nextId data user now true
      = ⟨⟨false, messageSystemError, none, none⟩, db⟩ ∧
    (submit_reading db nextId data user now true).result
      = (submit_reading db nextId data user now false).result := by
  have hmain : submit_reading db nextId data user now true
      = ⟨⟨false, messageSystemError, none, none⟩, db⟩ := by
    simp [submit_reading, hh, PoolReading.applySaveDerivation, hcol]
  refine ⟨hmain, ?_⟩
  rw [hmain]
  simp [submit_reading, hh]

/-- Witness for `duplicate_reference_downgraded_generic` at the concrete
same-second duplicate of `firstSubmit`. -/
theorem duplicate_reference_downgraded_generic_witness :
    submit_reading firstSubmit.db 2 sampleData staffUser t1 true
      = ⟨⟨false, messageSystemError, none, none⟩, firstSubmit.db⟩ :=
  (duplicate_reference_downgraded_generic firstSubmit.db 2 sampleData
    staffUser hotelA t1 rfl (by decide)).1

/-- C3 counterexample: the legacy wrapper `submit_pool_reading` — the
submission entry point the form uses — raises the pydantic validation error
for an out-of-range pH (15) instead of returning a `success:false`
structured result. -/
theorem submit_wrapper_raises_on_out_of_range :
    submit_pool_reading [] 1 15 1 100 26 "clear" "" staffUser t1 true
      = .error .validationError ∧
    ¬ ((15 : ℚ) ≤ 14) := by
  exact ⟨rfl, by decide⟩

/-- C3 amended: `authenticate`, `get_current_user`, `submit_reading` (once
its DTO exists) and `update_reading_status` return structured results and
downgrade a store failure to a generic localized failure; but
`get_reading_by_reference` catches only the not-found case and lets a store
failure propagate, and `submit_pool_reading` constructs its DTO outside the
guarded region, so out-of-range measurement data raises a validation error
rather than returning `success:false`. -/
theorem error_propagation_boundary (users : List User)
    (cp : String → String → Bool) (un pw : String) (st : SessionState)
    (db : List PoolReading) (nextId : Nat) (data : PoolReadingData)
    (user : User) (now : DateTime) (r : PoolReading) (s : String) (a : User)
    (refId : String) (ph chlorine : ℚ) (alk : ℤ) (temp : ℚ)
    (clarity notes : String) (hun : un ≠ "") (hpw : pw ≠ "") :
    authenticate users cp un pw false
      = ⟨false, "Kimlik doğrulama sırasında bir hata oluştu", none⟩ ∧
    (get_current_user users st false).user = none ∧
    (submit_reading db nextId data user now false).result.success = false ∧
    (update_reading_status db r s a now false).ok = false ∧
    get_reading_by_reference db refId false = .error .storeError ∧
    (¬ (0 ≤ ph ∧ ph ≤ 14 ∧ 0 ≤ chlorine ∧ 0 ≤ alk) →
      submit_pool_reading db nextId ph chlorine alk temp clarity notes user
          now true = .error .validationError) := by
  refine ⟨?_, ?_, ?_, ?_, rfl, fun hbad => ?_⟩
  · simp [authenticate, hun, hpw]
  · obtain ⟨uidOpt⟩ := st
    cases uidOpt with
    | none => rfl
    | some uid => by_cases h0 : uid = 0 <;> simp [get_current_user, h0]
  · cases hh : user.hotel <;> simp [submit_reading, hh]
  · by_cases hv : s ∈ statusChoices <;> simp [update_reading_status, hv]
  · simp [submit_pool_reading, mkPoolReadingData, hbad, Except.map]

/-- Witness for `error_propagation_boundary` at concrete inputs, including
the out-of-range pH 15 raising through the wrapper. -/
theorem error_propagation_boundary_witness :
    authenticate [staffUser] (fun _ _ => true) "ayse" "pw" false
      = ⟨false, "Kimlik doğrulama sırasında bir hata oluştu", none⟩ ∧
    get_reading_by_reference [reading1] "x" false = .error .storeError ∧
    submit_pool_reading [] 1 15 1 100 26 "clear" "" staffUser t1 true
      = .error .validationError := by
  have h := error_propagation_boundary [staffUser] (fun _ _ => true)
    "ayse" "pw" ⟨some 10⟩ [reading1] 1 sampleData staffUser t1 reading1
    "submitted" staffUser "x" 15 1 100 26 "clear" ""
    (by decide) (by decide)
  exact ⟨h.1, h.2.2.2.2.1, h.2.2.2.2.2 (by decide)⟩

/-- C4 counterexample: for a user with no hotel AND an out-of-range pH, the
submission raises the validation error — the NoHotelAssigned outcome is
preempted by measurement validation, refuting "this hotel precondition is
checked before validation of the measurement fields". -/
theorem validation_preempts_no_hotel :
    noHotelUser.hotel = none ∧
    submit_pool_reading [] 1 15 1 100 26 "clear" "" noHotelUser t1 true
      = .error .validationError := by
  exact ⟨rfl, rfl⟩

/-- C4 amended: when the measurement data passes DTO validation, a
submission by a hotel-less user fails with the NoHotelAssigned result
(regardless of store health); but the wrapper validates the DTO before the
hotel precondition, so out-of-range data (e.g. pH above 14) raises a
validation error that preempts NoHotelAssigned. -/
theorem no_hotel_checked_after_dto_validation (db : List PoolReading)
    (nextId : Nat) (ph chlorine : ℚ) (alk : ℤ) (temp : ℚ)
    (clarity notes : String) (user : User) (now : DateTime) (storeOk : Bool)
    (hvalid : 0 ≤ ph ∧ ph ≤ 14 ∧ 0 ≤ chlorine ∧ 0 ≤ alk)
    (hnoh : user.hotel = none) :
    submit_pool_reading db nextId ph chlorine alk temp clarity notes user now
        storeOk = .ok ⟨⟨false, messageNoHotel, none, none⟩, db⟩ ∧
    (∀ ph2 : ℚ, 14 < ph2 →
      submit_pool_reading db nextId ph2 chlorine alk temp clarity notes user
          now storeOk = .error .validationError) := by
  constructor
  · simp [submit_pool_reading, mkPoolReadingData, hvalid, submit_reading, hnoh,
      Except.map]
  · intro ph2 h2
    have hbad : ¬ (0 ≤ ph2 ∧ ph2 ≤ 14 ∧ 0 ≤ chlorine ∧ 0 ≤ alk) := by
      intro hc
      exact absurd hc.2.1 (not_le.mpr h2)
    simp [submit_pool_reading, mkPoolReadingData, hbad, Except.map]

/-- Witness for `no_hotel_checked_after_dto_validation`: valid data yields
the NoHotelAssigned result for `noHotelUser`; pH 15 raises instead. -/
theorem no_hotel_checked_after_dto_validation_witness :
    submit_pool_reading [] 1 7 1 100 26 "clear" "" noHotelUser t1 true
      = .ok ⟨⟨false, messageNoHotel, none, none⟩, []⟩ ∧
    submit_pool_reading [] 1 15 1 100 26 "clear" "" noHotelUser t1 true
      = .error .validationError := by
  have h := no_hotel_checked_after_dto_validation [] 1 7 1 100 26 "clear" ""
    noHotelUser t1 true (by decide) rfl
  exact ⟨h.1, h.2 15 (by decide)⟩

/-- The row `_create_reading` persists on a collision-free insert: all
fields from the DTO, owner and submitter from the user, status `submitted`,
and the freshly derived reference id. -/
def createdReading (nextId : Nat) (data : PoolReadingData) (user : User)
    (h : Hotel) (now : DateTime) : PoolReading :=
  ⟨nextId, h, user, some now, data.phLevel, data.chlorinePpm,
   data.alkalinityPpm, data.temperatureCelsius, data.waterClarity, data.notes,
   h.name ++ "__" ++ user.username ++ "__" ++ formatTimestamp now, "submitted"⟩

/-- The revised measurement values resubmitted for an existing reading. -/
def revisedData : PoolReadingData := ⟨8, 1, 100, 26, "cloudy", ""⟩

/-- C5 counterexample: resubmitting revised fields for the existing
non-readonly `reading1` (status `submitted`) through the form's submission
path leaves `reading1` untouched in the store and creates a brand-new
record with a new id and a new reference id — refuting "updates that
existing reading in place". -/
theorem resubmission_creates_new_record :
    handle_submit [reading1] 2 8 1 100 26 "cloudy" "" staffUser t2 true
      = .ok ⟨⟨true, messageSubmitSuccess,
              some (createdReading 2 revisedData staffUser hotelA t2).referenceId,
              some (createdReading 2 revisedData staffUser hotelA t2)⟩,
             [createdReading 2 revisedData staffUser hotelA t2, reading1]⟩ ∧
    (createdReading 2 revisedData staffUser hotelA t2).referenceId
      ≠ reading1.referenceId ∧
    reading1.status = "submitted" := by
  refine ⟨rfl, by decide, rfl⟩

/-- C5 amended: for a user with a hotel, a healthy store, and no reference
collision, the submission path appends a brand-new record (owner from the
user, fields from the DTO, status `submitted`, freshly derived reference
id) and leaves every pre-existing record unchanged — there is no
update-in-place of an existing reading. -/
theorem submission_path_appends_new_record (db : List PoolReading)
    (nextId : Nat) (data : PoolReadingData) (user : User) (h : Hotel)
    (now : DateTime) (hh : user.hotel = some h)
    (hfresh : db.any (fun x => x.referenceId =
      h.name ++ "__" ++ user.username ++ "__" ++ formatTimestamp now) = false) :
    submit_reading db nextId data user now true
      = ⟨⟨true, messageSubmitSuccess,
           some (createdReading nextId data user h now).referenceId,
           some (createdReading nextId data user h now)⟩,
          createdReading nextId data user h now :: db⟩ := by
  simp [submit_reading, hh, PoolReading.applySaveDerivation, hfresh,
    createdReading]

/-- Witness for `submission_path_appends_new_record`: the concrete
resubmission over a store holding `reading1`. -/
theorem submission_path_appends_new_record_witness :
    submit_reading [reading1] 2 revisedData staffUser t2 true
      = ⟨⟨true, messageSubmitSuccess,
           some (createdReading 2 revisedData staffUser hotelA t2).referenceId,
           some (createdReading 2 revisedData staffUser hotelA t2)⟩,
          [createdReading 2 revisedData staffUser hotelA t2, reading1]⟩ :=
  submission_path_appends_new_record [reading1] 2 revisedData staffUser
    hotelA t2 rfl (by decide)

end PoolSpec
